import Mathlib

/-!
# Verification of the SimplePlot canvas layer

A shallow embedding of `src/simpleplot/canvas.cpp` (namespace `SimplePlot`),
together with the `Series` plot variant and the `Axis` interface, and proofs
about the behaviour of canvas plot membership, axis-limit computation,
draw-space computation, static-mode data ownership, canvas teardown and the
registry locking discipline.

Conventions of the embedding:

* `PLOT_ID` is `Nat`; the global plot registry (`getPlotType`,
  `getPlotAxisType`, `getPlotAxisLimits`) becomes an environment record
  `PlotEnv` of functions from ids.
* Plot-type precedence values (`(int)getPlotType(...)`) are `Int`.
* `Canvas::addPlot` contains a hand-written binary-search loop.  The loop is
  embedded with explicit fuel, returning `none` when the fuel runs out (the
  C++ loop does not terminate in exactly the runs where every fuel bound is
  exhausted, and we prove self-looping where relevant).  The C++ code reads
  `getPlotType(*end)` where `end = plots.end()`, i.e. it dereferences the
  past-the-end iterator — undefined behaviour.  That single garbage read is
  embedded as an explicit parameter `g`, so every theorem quantifying over
  `g` covers every possible outcome of the garbage read.
* A C++ `throw std::logic_error` is the `err` constructor of `Outcome`; it
  records the state of the member list at the throw (`plots.push_back` in
  the empty branch of `addPlot` happens before `setAxisType` can throw).
-/

namespace SimplePlot

/-- `AXIS_TYPE` enum: only `CART_2D` is implemented; `SPECIAL` is mutually
exclusive with other plots (further constructors would behave like
`SPECIAL` in every code path modelled here). -/
inductive AXIS_TYPE where
  | CART_2D : AXIS_TYPE
  | SPECIAL : AXIS_TYPE
deriving DecidableEq

/-- The global plot registry as seen by `Canvas`: each plot id has a
plot-type precedence (`(int)getPlotType(id)`) and an axis type
(`getPlotAxisType(id)`). -/
structure PlotEnv where
  getPlotType : Nat → Int
  getPlotAxisType : Nat → AXIS_TYPE

/-- The state of a `Canvas` that plot-membership operations touch: the
ordered `plots` vector and the `axisType` member (`none` models the
uninitialized member before any plot sets it). -/
structure Canvas where
  plots : List Nat
  axisType : Option AXIS_TYPE
deriving DecidableEq

/-- Result of a canvas operation: normal return carrying the new state,
a `std::logic_error` throw carrying the state at the throw, or
non-termination (fuel exhaustion of the embedded loop). -/
inductive Outcome where
  | ok : Canvas → Outcome
  | err : Canvas → Outcome
  | noTerm : Outcome
deriving DecidableEq

/-- Precedence of the plot stored at index `i` of `plots`
(`(int)getPlotType(plots[i])`).  Out-of-range indices default to id 0;
all uses keep the index in range. -/
def orderAt (env : PlotEnv) (plots : List Nat) (i : Nat) : Int :=
  env.getPlotType (plots.getD i 0)

/-- The `while (beginOrder != endOrder)` loop of `Canvas::addPlot`
(canvas.cpp lines 210–221), with iterators replaced by indices into
`plots`.  Arguments after the fuel: `b`/`e` are the `begin`/`end` indices
and `bo`/`eo` the cached `beginOrder`/`endOrder`.  Returns the final
`(begin, beginOrder)` pair, or `none` when the fuel is exhausted. -/
def addPlotLoop (env : PlotEnv) (plots : List Nat) (thisOrder : Int) :
    Nat → Nat → Nat → Int → Int → Option (Nat × Int)
  | 0, _, _, _, _ => none
  | fuel + 1, b, e, bo, eo =>
    if bo = eo then some (b, bo)
    else
      let m := b + (e - b) / 2
      let mo := orderAt env plots m
      if thisOrder < mo then addPlotLoop env plots thisOrder fuel m e mo eo
      else addPlotLoop env plots thisOrder fuel b m bo mo

/-- `plots.insert(begin, plotID)`: insert before position `i`. -/
def insertAt : Nat → Nat → List Nat → List Nat
  | 0, p, l => p :: l
  | _ + 1, p, [] => [p]
  | i + 1, p, q :: qs => q :: insertAt i p qs

/-- `Canvas::setAxisType` (canvas.cpp lines 237–248): allocates the axis
buffers for `CART_2D` and throws `std::logic_error` for every other axis
type.  Only the throw/no-throw behaviour is state we track. -/
def setAxisTypeThrows (t : Option AXIS_TYPE) : Bool :=
  t ≠ some AXIS_TYPE.CART_2D

/-- `Canvas::addPlot` (canvas.cpp lines 196–227).  `g` is the value of the
undefined-behaviour read `(int)getPlotType(*plots.end())` at line 209, and
`fuel` bounds the iterations of the binary-search loop. -/
def addPlot (env : PlotEnv) (c : Canvas) (plotID : Nat) (g : Int)
    (fuel : Nat) : Outcome :=
  match c.plots with
  | [] =>
    let c' : Canvas := ⟨[plotID], some (env.getPlotAxisType plotID)⟩
    if setAxisTypeThrows c'.axisType then Outcome.err c' else Outcome.ok c'
  | q :: _ =>
    let thisOrder := env.getPlotType plotID
    match addPlotLoop env c.plots thisOrder fuel 0 c.plots.length
        (env.getPlotType q) g with
    | none => Outcome.noTerm
    | some (b, bo) =>
      if bo ≠ thisOrder then Outcome.err c
      else Outcome.ok ⟨insertAt b plotID c.plots, c.axisType⟩

/-- `Canvas::removePlot` (canvas.cpp lines 228–235): `std::find` the id,
return silently if absent, otherwise erase the first occurrence. -/
def removePlot : List Nat → Nat → List Nat
  | [], _ => []
  | q :: qs, p => if q = p then qs else q :: removePlot qs p

/-- The `for (PLOT_ID id : plots_)` loop of the `Canvas` constructor
(canvas.cpp lines 39–44): check each plot against the canvas axis type,
throwing on mismatch, then `addPlot` it.  `gs i` is the garbage end-read
of the `i`-th `addPlot` call. -/
def ctorLoop (env : PlotEnv) (axisT : AXIS_TYPE) (gs : Nat → Int)
    (fuel : Nat) : Canvas → List Nat → Nat → Outcome
  | c, [], _ => Outcome.ok c
  | c, p :: ps, i =>
    if env.getPlotAxisType p ≠ axisT then Outcome.err c
    else
      match addPlot env c p (gs i) fuel with
      | Outcome.ok c' => ctorLoop env axisT gs fuel c' ps (i + 1)
      | Outcome.err c' => Outcome.err c'
      | Outcome.noTerm => Outcome.noTerm

/-- `Canvas::Canvas` (canvas.cpp lines 30–52) restricted to the state the
claims are about: empty input returns at once with `axisType` unset;
otherwise the shared axis type is that of the first plot, a `SPECIAL`
first plot may not have company, every plot must match the shared type and
is inserted through `addPlot`, and a final `setAxisType()` call rejects
any non-`CART_2D` axis type. -/
def canvasCtor (env : PlotEnv) (plots_ : List Nat) (gs : Nat → Int)
    (fuel : Nat) : Outcome :=
  match plots_ with
  | [] => Outcome.ok ⟨[], none⟩
  | p0 :: rest =>
    let axisT := env.getPlotAxisType p0
    if rest.length + 1 > 1 ∧ axisT = AXIS_TYPE.SPECIAL then
      Outcome.err ⟨[], some axisT⟩
    else
      match ctorLoop env axisT gs fuel ⟨[], none⟩ (p0 :: rest) 0 with
      | Outcome.ok c =>
        if setAxisTypeThrows c.axisType then Outcome.err c else Outcome.ok c
      | r => r

/-- The member list is sorted by plot-type precedence from greatest to
least (`// Insert into a list which is sorted from greatest to least.`,
canvas.cpp line 204). -/
def SortedDesc (env : PlotEnv) (l : List Nat) : Prop :=
  l.Pairwise (fun a b => env.getPlotType b ≤ env.getPlotType a)

/-- A caller-side plot-membership operation on a canvas: `Canvas::addPlot`
(with the garbage end-read `g` of that particular call) or
`Canvas::removePlot`. -/
inductive Op where
  | add : Nat → Int → Op
  | remove : Nat → Op

/-- Apply one membership operation.  A thrown `std::logic_error` leaves the
canvas in the state it had at the throw (the caller can continue using the
object); a non-terminating `addPlot` yields no next state. -/
def applyOp (env : PlotEnv) (fuel : Nat) (c : Canvas) : Op → Option Canvas
  | Op.add p g =>
    match addPlot env c p g fuel with
    | Outcome.ok c' => some c'
    | Outcome.err c' => some c'
    | Outcome.noTerm => none
  | Op.remove p => some ⟨removePlot c.plots p, c.axisType⟩

/-- Apply a sequence of membership operations. -/
def runOps (env : PlotEnv) (fuel : Nat) : Canvas → List Op → Option Canvas
  | c, [] => some c
  | c, op :: ops =>
    match applyOp env fuel c op with
    | some c' => runOps env fuel c' ops
    | none => none

/-- The binary-search loop only ever leaves `begin` at its initial
position 0 (with `beginOrder` the order of the first member) or moves it
to a position whose order is strictly greater than the inserted plot's
order — `begin` is assigned only in the `middleOrder > thisOrder`
branch. -/
theorem addPlotLoop_inv (env : PlotEnv) (plots : List Nat)
    (thisOrder : Int) :
    ∀ fuel b e bo eo b' bo',
      addPlotLoop env plots thisOrder fuel b e bo eo = some (b', bo') →
      ((b = 0 ∧ bo = orderAt env plots 0) ∨ thisOrder < bo) →
      ((b' = 0 ∧ bo' = orderAt env plots 0) ∨ thisOrder < bo') := by
  intro fuel
  induction fuel with
  | zero => intro b e bo eo b' bo' h; simp [addPlotLoop] at h
  | succ f ih =>
    intro b e bo eo b' bo' h hinv
    simp only [addPlotLoop] at h
    split at h
    · rw [Option.some.injEq, Prod.mk.injEq] at h
      rw [← h.1, ← h.2]
      exact hinv
    · split at h
      · exact ih _ _ _ _ _ _ h (Or.inr (by assumption))
      · exact ih _ _ _ _ _ _ h hinv

/-- Characterization of a successful `addPlot`: either the canvas was
empty and the result is the singleton canvas of a `CART_2D` plot, or the
new plot's order equals the first member's and it is inserted at the very
front. -/
theorem addPlot_eq_ok (env : PlotEnv) (c : Canvas) (p : Nat) (g : Int)
    (fuel : Nat) (c' : Canvas)
    (h : addPlot env c p g fuel = Outcome.ok c') :
    (c.plots = [] ∧ c' = ⟨[p], some (env.getPlotAxisType p)⟩ ∧
      env.getPlotAxisType p = AXIS_TYPE.CART_2D) ∨
    (c.plots ≠ [] ∧
      env.getPlotType (c.plots.getD 0 0) = env.getPlotType p ∧
      c' = ⟨p :: c.plots, c.axisType⟩) := by
  obtain ⟨pl, ax⟩ := c
  cases pl with
  | nil =>
    simp only [addPlot, setAxisTypeThrows] at h
    by_cases ht : env.getPlotAxisType p = AXIS_TYPE.CART_2D
    · simp [ht] at h
      refine Or.inl ⟨rfl, ?_, ht⟩
      rw [ht]; exact h.symm
    · simp [ht] at h
  | cons q qs =>
    simp only [addPlot] at h
    cases hloop : addPlotLoop env (q :: qs) (env.getPlotType p) fuel 0
        (q :: qs).length (env.getPlotType q) g with
    | none => rw [hloop] at h; simp at h
    | some r =>
      obtain ⟨b, bo⟩ := r
      rw [hloop] at h
      have hstart : (0 = 0 ∧ env.getPlotType q = orderAt env (q :: qs) 0) ∨
          env.getPlotType p < env.getPlotType q :=
        Or.inl ⟨rfl, rfl⟩
      have hinv := addPlotLoop_inv env (q :: qs) (env.getPlotType p)
        fuel 0 (q :: qs).length (env.getPlotType q) g b bo hloop hstart
      by_cases hbo : bo = env.getPlotType p
      · simp only [hbo, ne_eq, not_true_eq_false, if_false, ite_false] at h
        rcases hinv with ⟨hb0, hoq⟩ | hlt
        · refine Or.inr ⟨by simp, ?_, ?_⟩
          · rw [hoq] at hbo; exact hbo
          · rw [hb0] at h
            simp only [insertAt] at h
            simp at h
            exact h.symm
        · rw [hbo] at hlt; exact absurd hlt (lt_irrefl _)
      · simp [hbo] at h

/-- A thrown `addPlot` leaves the member list unchanged (non-empty case:
the throw happens before the insert) or as the just-pushed singleton
(empty case: `push_back` precedes the `setAxisType` throw). -/
theorem addPlot_eq_err (env : PlotEnv) (c : Canvas) (p : Nat) (g : Int)
    (fuel : Nat) (c' : Canvas)
    (h : addPlot env c p g fuel = Outcome.err c') :
    c' = c ∨ c'.plots = [p] := by
  obtain ⟨pl, ax⟩ := c
  cases pl with
  | nil =>
    simp only [addPlot] at h
    split at h
    · rw [Outcome.err.injEq] at h
      exact Or.inr (by rw [← h])
    · simp at h
  | cons q qs =>
    simp only [addPlot] at h
    cases hloop : addPlotLoop env (q :: qs) (env.getPlotType p) fuel 0
        (q :: qs).length (env.getPlotType q) g with
    | none => rw [hloop] at h; simp at h
    | some r =>
      obtain ⟨b, bo⟩ := r
      rw [hloop] at h
      by_cases hbo : bo = env.getPlotType p
      · simp [hbo] at h
      · simp [hbo] at h
        exact Or.inl h.symm

/-- `removePlot` yields a sublist of the original member list. -/
theorem removePlot_sublist (l : List Nat) (p : Nat) :
    (removePlot l p).Sublist l := by
  induction l with
  | nil => exact List.Sublist.refl []
  | cons q qs ih =>
    simp only [removePlot]
    split
    · exact List.sublist_cons_self q qs
    · exact List.Sublist.cons₂ q ih

/-- Both normal and throwing runs of `addPlot` preserve sortedness of the
member list by descending plot-type precedence. -/
theorem addPlot_preserves_sorted (env : PlotEnv) (c : Canvas) (p : Nat)
    (g : Int) (fuel : Nat) (c' : Canvas)
    (hs : SortedDesc env c.plots)
    (h : addPlot env c p g fuel = Outcome.ok c' ∨
      addPlot env c p g fuel = Outcome.err c') :
    SortedDesc env c'.plots := by
  rcases h with h | h
  · rcases addPlot_eq_ok env c p g fuel c' h with ⟨_, hc', _⟩ | ⟨_, hq, hc'⟩
    · rw [hc']; exact List.pairwise_singleton _ _
    · rw [hc']
      refine List.Pairwise.cons ?_ hs
      intro b hb
      cases hpl : c.plots with
      | nil => rw [hpl] at hb; cases hb
      | cons q qs =>
        rw [hpl] at hb hq hs
        simp only [List.getD_cons_zero] at hq
        rw [← hq]
        rcases List.mem_cons.mp hb with hb | hb
        · subst hb; exact le_refl _
        · exact (List.pairwise_cons.mp hs).1 b hb
  · rcases addPlot_eq_err env c p g fuel c' h with hc' | hc'
    · rw [hc']; exact hs
    · rw [hc']; exact List.pairwise_singleton _ _

/-- Every membership operation preserves sortedness of the member list. -/
theorem applyOp_preserves_sorted (env : PlotEnv) (fuel : Nat) (c : Canvas)
    (op : Op) (c' : Canvas) (hs : SortedDesc env c.plots)
    (h : applyOp env fuel c op = some c') : SortedDesc env c'.plots := by
  cases op with
  | add p g =>
    simp only [applyOp] at h
    cases hadd : addPlot env c p g fuel with
    | ok d =>
      rw [hadd] at h
      rw [Option.some.injEq] at h
      subst h
      exact addPlot_preserves_sorted env c p g fuel d hs (Or.inl hadd)
    | err d =>
      rw [hadd] at h
      rw [Option.some.injEq] at h
      subst h
      exact addPlot_preserves_sorted env c p g fuel d hs (Or.inr hadd)
    | noTerm => rw [hadd] at h; simp at h
  | remove p =>
    simp only [applyOp, Option.some.injEq] at h
    subst h
    exact List.Pairwise.sublist (removePlot_sublist c.plots p) hs

/-- With `begin = 0` and `beginOrder` already equal to the inserted order,
the search loop needs at most two more steps once `end` has shrunk to 0. -/
theorem addPlotLoop_e_zero (env : PlotEnv) (plots : List Nat)
    (thisOrder : Int) (h0 : orderAt env plots 0 = thisOrder) :
    ∀ eo fuel, 2 ≤ fuel →
      addPlotLoop env plots thisOrder fuel 0 0 thisOrder eo =
        some (0, thisOrder) := by
  intro eo fuel hfuel
  obtain ⟨f, rfl⟩ : ∃ f, fuel = f + 2 := ⟨fuel - 2, by omega⟩
  by_cases heq : thisOrder = eo
  · simp [addPlotLoop, heq]
  · simp [addPlotLoop, heq, h0]

/-- When every member's order is at most the inserted order and the first
member's order equals it, the binary-search loop terminates with `begin`
still at 0 (fuel `e + 2` suffices: `end` at least halves each step). -/
theorem addPlotLoop_term (env : PlotEnv) (plots : List Nat)
    (thisOrder : Int)
    (hall : ∀ i, i < plots.length → orderAt env plots i ≤ thisOrder)
    (h0 : orderAt env plots 0 = thisOrder) :
    ∀ e, e ≤ plots.length → ∀ eo fuel, e + 2 ≤ fuel →
      addPlotLoop env plots thisOrder fuel 0 e thisOrder eo =
        some (0, thisOrder) := by
  intro e
  induction e using Nat.strong_induction_on with
  | _ e ih =>
    intro hle eo fuel hfuel
    cases Nat.eq_zero_or_pos e with
    | inl he0 =>
      subst he0
      exact addPlotLoop_e_zero env plots thisOrder h0 eo fuel (by omega)
    | inr hepos =>
      obtain ⟨f, rfl⟩ : ∃ f, fuel = f + 1 := ⟨fuel - 1, by omega⟩
      by_cases heq : thisOrder = eo
      · simp [addPlotLoop, heq]
      · simp only [addPlotLoop, heq, if_false, ite_false]
        have hm : 0 + (e - 0) / 2 < e := by omega
        have hmo : orderAt env plots (0 + (e - 0) / 2) ≤ thisOrder :=
          hall _ (lt_of_lt_of_le hm hle)
        rw [if_neg (not_lt.mpr hmo)]
        exact ih _ hm (le_of_lt (lt_of_lt_of_le hm hle)) _ f (by omega)

/-- In a sorted member list every entry's order is at most the first
entry's order. -/
theorem sorted_orderAt_le_head (env : PlotEnv) (q : Nat) (qs : List Nat)
    (hs : SortedDesc env (q :: qs)) :
    ∀ i, i < (q :: qs).length →
      orderAt env (q :: qs) i ≤ env.getPlotType q := by
  intro i hi
  cases i with
  | zero => simp [orderAt]
  | succ j =>
    simp only [List.length_cons, Nat.succ_lt_succ_iff] at hi
    have hmem : (q :: qs).getD (j + 1) 0 ∈ qs := by
      rw [List.getD_cons_succ, List.getD_eq_getElem qs 0 hi]
      exact List.getElem_mem hi
    exact (List.pairwise_cons.mp hs).1 _ hmem

/-- When the inserted plot's order equals the first member's order,
`addPlot` on a sorted non-empty canvas terminates and inserts the plot at
the very front, for every value of the garbage end-read. -/
theorem addPlot_insert_front (env : PlotEnv) (c : Canvas) (p q : Nat)
    (qs : List Nat) (g : Int) (fuel : Nat) (hc : c.plots = q :: qs)
    (hs : SortedDesc env c.plots)
    (hq : env.getPlotType p = env.getPlotType q)
    (hfuel : c.plots.length + 2 ≤ fuel) :
    addPlot env c p g fuel = Outcome.ok ⟨p :: c.plots, c.axisType⟩ := by
  obtain ⟨pl, ax⟩ := c
  simp only at hc
  subst hc
  simp only at hs hfuel
  have hterm := addPlotLoop_term env (q :: qs) (env.getPlotType p)
    (fun i hi =>
      le_of_le_of_eq (sorted_orderAt_le_head env q qs hs i hi) hq.symm)
    (by simp only [orderAt, List.getD_cons_zero]; exact hq.symm)
    (q :: qs).length (le_refl _) g fuel hfuel
  simp only [addPlot]
  rw [← hq, hterm]
  simp [insertAt]

/-- `removePlot` of an absent id leaves the list unchanged
(`std::find` reaches `plots.end()` and the function returns). -/
theorem removePlot_not_mem (l : List Nat) (p : Nat) (hp : p ∉ l) :
    removePlot l p = l := by
  induction l with
  | nil => rfl
  | cons q qs ih =>
    simp only [removePlot]
    rw [List.mem_cons, not_or] at hp
    rw [if_neg (fun h => hp.1 h.symm), ih hp.2]

/-- A concrete plot registry used by the witnesses and counterexamples:
ids 0 and 1 have plot-type precedence 5, all other ids precedence 3;
every plot is `CART_2D`. -/
def envRun : PlotEnv :=
  ⟨fun n => if n < 2 then 5 else 3, fun _ => AXIS_TYPE.CART_2D⟩

/-- Concrete canvas whose member orders are `[5, 5, 3, 3]` under
`envRun`. -/
def cRun : Canvas := ⟨[0, 1, 2, 3], some AXIS_TYPE.CART_2D⟩

/-- C1: for every canvas and every sequence of `addPlot`/`removePlot`
operations applied to it, the member-plot sequence remains sorted by
plot-type precedence (greatest to least) after each operation.  Stated
for every registry `env`, every garbage value of `addPlot`'s
past-the-end read, and every loop fuel: every state reached from a
sorted state through a terminating sequence of operations (states after
thrown `std::logic_error`s included) is sorted; intermediate states are
covered by instantiating `ops` with each prefix. -/
theorem claim_C1_membership_sorted (env : PlotEnv) (fuel : Nat)
    (c : Canvas) (ops : List Op) (d : Canvas)
    (h : SortedDesc env c.plots)
    (hrun : runOps env fuel c ops = some d) : SortedDesc env d.plots := by
  induction ops generalizing c with
  | nil =>
    simp only [runOps, Option.some.injEq] at hrun
    rw [← hrun]; exact h
  | cons op ops ih =>
    simp only [runOps] at hrun
    cases hop : applyOp env fuel c op with
    | none => rw [hop] at hrun; simp at hrun
    | some e =>
      rw [hop] at hrun
      exact ih e (applyOp_preserves_sorted env fuel c op e h hop) hrun

/-- Witness for C1 at a concrete input: starting from the sorted canvas
`[0, 2, 3]` (orders `[5, 3, 3]`), adding plot 1 (order 5) and removing
plot 2 yields `[1, 0, 3]`, which is again sorted. -/
theorem claim_C1_membership_sorted_witness :
    SortedDesc envRun [0, 2, 3] ∧
    runOps envRun 100 ⟨[0, 2, 3], some AXIS_TYPE.CART_2D⟩
      [Op.add 1 0, Op.remove 2] =
      some ⟨[1, 0, 3], some AXIS_TYPE.CART_2D⟩ ∧
    SortedDesc envRun [1, 0, 3] := by
  refine ⟨?_, ?_, ?_⟩
  · unfold SortedDesc; decide
  · decide
  · exact claim_C1_membership_sorted envRun 100
      ⟨[0, 2, 3], some AXIS_TYPE.CART_2D⟩ [Op.add 1 0, Op.remove 2]
      ⟨[1, 0, 3], some AXIS_TYPE.CART_2D⟩
      (by unfold SortedDesc; decide) (by decide)

set_option maxRecDepth 40000 in
/-- C7 counterexample: inserting a plot of order 3 into the member list
`[0, 1, 2, 3]` of orders `[5, 5, 3, 3]` — which contains the contiguous
run of order 3 at positions 2 and 3 — never inserts: depending on the
value of the undefined-behaviour read `getPlotType(*plots.end())` the
code either throws `std::logic_error` (read value 5) or fails to
terminate (read value 0; no fuel bound up to 1000 completes the loop,
which reaches the self-looping state `begin = 1`, `end = 2`). -/
theorem claim_C7_counterexample :
    envRun.getPlotType 2 = envRun.getPlotType 4 ∧
    envRun.getPlotType 3 = envRun.getPlotType 4 ∧
    addPlot envRun cRun 4 5 100 = Outcome.err cRun ∧
    addPlot envRun cRun 4 0 1000 = Outcome.noTerm := by
  refine ⟨by decide, by decide, by decide, by decide⟩

/-- The self-looping state of the search loop on `cRun` with inserted
order 3: from `begin = 1`, `end = 2`, `beginOrder = 5`, `endOrder = 3`
the loop never returns, for any amount of fuel. -/
theorem addPlotLoop_cRun_diverges (fuel : Nat) :
    addPlotLoop envRun [0, 1, 2, 3] 3 fuel 1 2 5 3 = none := by
  induction fuel with
  | zero => rfl
  | succ f ih =>
    have hstep : addPlotLoop envRun [0, 1, 2, 3] 3 (f + 1) 1 2 5 3 =
        addPlotLoop envRun [0, 1, 2, 3] 3 f 1 2 5 3 := by
      simp only [addPlotLoop]
      norm_num [orderAt, envRun]
    rw [hstep]; exact ih

/-- C7 amended: `addPlot` on a non-empty sorted canvas inserts exactly
when the inserted plot's order equals the *first* member's order, and
then inserts at the front without error; whenever the orders differ the
plot is never inserted (the call throws or fails to terminate), even if
a matching contiguous run exists further down the list. -/
theorem claim_C7_insert_iff_head_order (env : PlotEnv) (c : Canvas)
    (p q : Nat) (qs : List Nat) (g : Int) (fuel : Nat)
    (hc : c.plots = q :: qs) (hs : SortedDesc env c.plots)
    (hfuel : c.plots.length + 2 ≤ fuel) :
    (env.getPlotType p = env.getPlotType q →
      addPlot env c p g fuel = Outcome.ok ⟨p :: c.plots, c.axisType⟩) ∧
    (env.getPlotType p ≠ env.getPlotType q →
      ∀ d, addPlot env c p g fuel ≠ Outcome.ok d) := by
  constructor
  · intro hq
    exact addPlot_insert_front env c p q qs g fuel hc hs hq hfuel
  · intro hq d hok
    rcases addPlot_eq_ok env c p g fuel d hok with ⟨hnil, _, _⟩ | ⟨_, ho, _⟩
    · rw [hc] at hnil; cases hnil
    · rw [hc] at ho
      simp only [List.getD_cons_zero] at ho
      exact hq ho.symm

/-- Witness for the amended C7 at a concrete input: adding plot 1
(order 5) to the sorted canvas `[0, 3]` (orders `[5, 3]`) inserts at the
front; adding plot 4 (order 3, differing from the head's order 5) to the
same canvas is never inserted. -/
theorem claim_C7_insert_iff_head_order_witness :
    addPlot envRun ⟨[0, 3], some AXIS_TYPE.CART_2D⟩ 1 7 100 =
      Outcome.ok ⟨[1, 0, 3], some AXIS_TYPE.CART_2D⟩ ∧
    ∀ d, addPlot envRun ⟨[0, 3], some AXIS_TYPE.CART_2D⟩ 4 7 100 ≠
      Outcome.ok d := by
  constructor
  · exact (claim_C7_insert_iff_head_order envRun
      ⟨[0, 3], some AXIS_TYPE.CART_2D⟩ 1 0 [3] 7 100 rfl
      (by unfold SortedDesc; decide) (by decide)).1 (by decide)
  · exact (claim_C7_insert_iff_head_order envRun
      ⟨[0, 3], some AXIS_TYPE.CART_2D⟩ 4 0 [3] 7 100 rfl
      (by unfold SortedDesc; decide) (by decide)).2 (by decide)

/-- C10: removing a plot id that is not in the membership list is a
silent no-op — `removePlot` raises no error (the operation always
produces a next state) and the canvas is returned unchanged. -/
theorem claim_C10_remove_absent (env : PlotEnv) (fuel : Nat) (c : Canvas)
    (p : Nat) (hp : p ∉ c.plots) :
    applyOp env fuel c (Op.remove p) = some c := by
  obtain ⟨pl, ax⟩ := c
  simp only [applyOp, Option.some.injEq]
  rw [Canvas.mk.injEq]
  exact ⟨removePlot_not_mem pl p hp, rfl⟩

/-- Witness for C10 at a concrete input: removing the absent id 9 from
the canvas `[0, 2, 3]` returns it unchanged. -/
theorem claim_C10_remove_absent_witness :
    applyOp envRun 100 ⟨[0, 2, 3], some AXIS_TYPE.CART_2D⟩ (Op.remove 9) =
      some ⟨[0, 2, 3], some AXIS_TYPE.CART_2D⟩ :=
  claim_C10_remove_absent envRun 100 ⟨[0, 2, 3], some AXIS_TYPE.CART_2D⟩ 9
    (by decide)

/-- If the constructor's plot loop returns normally, every plot of the
argument list passed the axis-type check against the shared axis type. -/
theorem ctorLoop_ok_types (env : PlotEnv) (axisT : AXIS_TYPE)
    (gs : Nat → Int) (fuel : Nat) :
    ∀ l c i d, ctorLoop env axisT gs fuel c l i = Outcome.ok d →
      ∀ p ∈ l, env.getPlotAxisType p = axisT := by
  intro l
  induction l with
  | nil => intro c i d _ p hp; cases hp
  | cons a as ih =>
    intro c i d h p hp
    simp only [ctorLoop] at h
    by_cases ha : env.getPlotAxisType a = axisT
    · rw [if_neg (fun hne => hne ha)] at h
      cases hadd : addPlot env c a (gs i) fuel with
      | ok c2 =>
        rw [hadd] at h
        rcases List.mem_cons.mp hp with hp | hp
        · subst hp; exact ha
        · exact ih c2 (i + 1) d h p hp
      | err c2 => rw [hadd] at h; cases h
      | noTerm => rw [hadd] at h; cases h
    · rw [if_pos ha] at h; cases h

/-- A concrete registry with both axis types: every plot has precedence
5; ids 1 and 2 are `SPECIAL`, all other ids `CART_2D`. -/
def envMix : PlotEnv :=
  ⟨fun _ => 5,
   fun n => if n = 1 ∨ n = 2 then AXIS_TYPE.SPECIAL else AXIS_TYPE.CART_2D⟩

/-- C2 counterexample: (1) constructing a canvas from the single
`SPECIAL`-axis plot 1 throws `std::logic_error` (`setAxisType`: axis
types other than cart 2d are unimplemented) instead of succeeding; and
(2) `addPlot` performs no axis-type check, so adding the `SPECIAL`-axis
plot 2 to an existing `CART_2D` canvas succeeds (the orders match), it
does not fail. -/
theorem claim_C2_counterexample :
    canvasCtor envMix [1] (fun _ => 0) 100 =
      Outcome.err ⟨[1], some AXIS_TYPE.SPECIAL⟩ ∧
    envMix.getPlotAxisType 2 ≠ envMix.getPlotAxisType 0 ∧
    addPlot envMix ⟨[0], some AXIS_TYPE.CART_2D⟩ 2 7 100 =
      Outcome.ok ⟨[2, 0], some AXIS_TYPE.CART_2D⟩ := by
  exact ⟨by decide, by decide, by decide⟩

/-- C2 amended: (a) creating a canvas from a plot list with mismatched
axis types never succeeds (whenever construction terminates it throws a
`LogicError`); (b) creating a canvas with a single `SPECIAL`-axis plot
passes the compatibility checks but still fails with a `LogicError`,
because `setAxisType` implements only `CART_2D`; (c) `addPlot` on a
non-empty canvas checks no axis type, so a plot of a different axis type
whose plot-type precedence equals the first member's is inserted without
error. -/
theorem claim_C2_axis_type_checks (env : PlotEnv) (gs : Nat → Int)
    (fuel : Nat) :
    (∀ plots_ c, (∃ p ∈ plots_, ∃ q ∈ plots_,
        env.getPlotAxisType p ≠ env.getPlotAxisType q) →
      canvasCtor env plots_ gs fuel ≠ Outcome.ok c) ∧
    (∀ p, env.getPlotAxisType p = AXIS_TYPE.SPECIAL →
      canvasCtor env [p] gs fuel =
        Outcome.err ⟨[p], some AXIS_TYPE.SPECIAL⟩) ∧
    (∀ c p q qs g f2, c.plots = q :: qs → SortedDesc env c.plots →
      env.getPlotType p = env.getPlotType q →
      env.getPlotAxisType p ≠ env.getPlotAxisType q →
      c.plots.length + 2 ≤ f2 →
      addPlot env c p g f2 = Outcome.ok ⟨p :: c.plots, c.axisType⟩) := by
  refine ⟨?_, ?_, ?_⟩
  · intro plots_ c hmix hok
    obtain ⟨p, hp, q, hq, hne⟩ := hmix
    cases plots_ with
    | nil => cases hp
    | cons p0 rest =>
      simp only [canvasCtor] at hok
      split at hok
      · cases hok
      · cases hloop : ctorLoop env (env.getPlotAxisType p0) gs fuel
            ⟨[], none⟩ (p0 :: rest) 0 with
        | ok d =>
          have htypes := ctorLoop_ok_types env (env.getPlotAxisType p0)
            gs fuel (p0 :: rest) ⟨[], none⟩ 0 d hloop
          exact hne ((htypes p hp).trans (htypes q hq).symm)
        | err d => rw [hloop] at hok; cases hok
        | noTerm => rw [hloop] at hok; cases hok
  · intro p hp
    simp only [canvasCtor, List.length_nil, ctorLoop, hp]
    rw [if_neg (by simp)]
    rw [if_neg (fun hne => hne rfl)]
    simp [addPlot, setAxisTypeThrows, hp]
  · intro c p q qs g f2 hc hs hq _ hfuel
    exact addPlot_insert_front env c p q qs g f2 hc hs hq hfuel

/-- Witness for the amended C2 at concrete inputs, one per conjunct:
constructing from the mismatched list `[0, 1]` is not a success;
constructing from the single `SPECIAL` plot `[1]` throws; adding the
`SPECIAL`-axis plot 2 to the `CART_2D` canvas `[0]` succeeds. -/
theorem claim_C2_axis_type_checks_witness :
    canvasCtor envMix [0, 1] (fun _ => 0) 100 ≠
      Outcome.ok ⟨[1, 0], some AXIS_TYPE.CART_2D⟩ ∧
    canvasCtor envMix [1] (fun _ => 0) 100 =
      Outcome.err ⟨[1], some AXIS_TYPE.SPECIAL⟩ ∧
    addPlot envMix ⟨[0], some AXIS_TYPE.CART_2D⟩ 2 7 100 =
      Outcome.ok ⟨[2, 0], some AXIS_TYPE.CART_2D⟩ := by
  refine ⟨?_, ?_, ?_⟩
  · exact (claim_C2_axis_type_checks envMix (fun _ => 0) 100).1 [0, 1]
      ⟨[1, 0], some AXIS_TYPE.CART_2D⟩
      ⟨0, by decide, 1, by decide, by decide⟩
  · exact (claim_C2_axis_type_checks envMix (fun _ => 0) 100).2.1 1
      (by decide)
  · exact (claim_C2_axis_type_checks envMix (fun _ => 0) 100).2.2
      ⟨[0], some AXIS_TYPE.CART_2D⟩ 2 0 [] 7 100 rfl
      (by unfold SortedDesc; decide) (by decide) (by decide) (by decide)

/-- The 4-element `axisLimits` buffer `{minX, maxX, minY, maxY}`
(canvas.cpp line 241, Series.cpp comment line 387).  Float values are
modelled as exact integers; every computation the claims touch is exact
assignment, subtraction and small-integer multiplication. -/
structure AxisLimits where
  minX : Int
  maxX : Int
  minY : Int
  maxY : Int
deriving DecidableEq

/-- The registry call `getPlotAxisLimits(id, axisLimits)` as seen by
`Canvas::draw`: each plot writes its own limits into the buffer,
overwriting all four entries, as `Series::getAxisLimits` does. -/
structure LimitsEnv where
  getPlotAxisLimits : Nat → AxisLimits

/-- The limits loop of `Canvas::draw` (canvas.cpp lines 251–253):
`for (PLOT_ID id : plots) getPlotAxisLimits(id, axisLimits);` — each
iteration overwrites the shared buffer with that plot's own limits. -/
def computeAxisLimits (env : LimitsEnv) (plots : List Nat)
    (axisLimits : AxisLimits) : AxisLimits :=
  plots.foldl (fun _ id => env.getPlotAxisLimits id) axisLimits

/-- A window-space point (Win32 `POINT`). -/
structure POINT where
  x : Int
  y : Int
deriving DecidableEq

/-- The 4-element `drawSpace` corner buffer (canvas.cpp line 242). -/
structure DrawSpaceQuad where
  p0 : POINT
  p1 : POINT
  p2 : POINT
  p3 : POINT
deriving DecidableEq

/-- The draw-space computation of `Canvas::draw` (canvas.cpp lines
260–266).  `border` stands for the constant `SP_BORDER_WIDTH` of
standard.h (not in the provided source); the theorems hold for every
value of it. -/
def computeDrawSpace (border sizeX sizeY clearanceHoriz clearanceVert :
    Int) : DrawSpaceQuad :=
  ⟨⟨clearanceVert, sizeY - clearanceHoriz⟩,
   ⟨sizeX - border, sizeY - clearanceHoriz⟩,
   ⟨clearanceVert, border⟩,
   ⟨sizeX - border, border⟩⟩

/-- The state-relevant outputs of one `Canvas::draw` pass: the limits
fed to `axes[0].setEnds`/`axes[1].setEnds` and the draw-space corners
the plots are drawn into. -/
def canvasDrawPass (env : LimitsEnv) (plots : List Nat)
    (axisLimits : AxisLimits)
    (border sizeX sizeY clearanceHoriz clearanceVert : Int) :
    AxisLimits × DrawSpaceQuad :=
  (computeAxisLimits env plots axisLimits,
   computeDrawSpace border sizeX sizeY clearanceHoriz clearanceVert)

/-- A concrete registry for the C4 counterexample: plot 0 has data range
`[0,1]×[0,1]`, every other plot `[5,6]×[5,6]`. -/
def envLim : LimitsEnv :=
  ⟨fun n => if n = 0 then ⟨0, 1, 0, 1⟩ else ⟨5, 6, 5, 6⟩⟩

/-- C4 counterexample: for the two-plot canvas `[0, 1]` the limits
produced by the paint pass are exactly plot 1's range `⟨5, 6, 5, 6⟩`;
no reduction happens, and the result does not bound plot 0's range
(computed `minX = 5 > 0`, and plot 0's whole Y-range `[0,1]` lies below
the computed `minY = 5`). -/
theorem claim_C4_counterexample :
    computeAxisLimits envLim [0, 1] ⟨0, 0, 0, 0⟩ = ⟨5, 6, 5, 6⟩ ∧
    (envLim.getPlotAxisLimits 0).minX = 0 ∧
    ¬ (computeAxisLimits envLim [0, 1] ⟨0, 0, 0, 0⟩).minX ≤
        (envLim.getPlotAxisLimits 0).minX ∧
    ¬ (envLim.getPlotAxisLimits 0).maxY ≥
        (computeAxisLimits envLim [0, 1] ⟨0, 0, 0, 0⟩).minY := by
  exact ⟨by decide, by decide, by decide, by decide⟩

/-- C4 amended: a paint pass queries every member plot's data range in
order, each query overwriting the shared limits buffer, so the limits
fed to the two Axis instances are exactly the LAST member plot's own
range (no reduction to a shared min/max across plots). -/
theorem claim_C4_limits_are_last_plots (env : LimitsEnv)
    (plots : List Nat) (init : AxisLimits) (h : plots ≠ []) :
    computeAxisLimits env plots init =
      env.getPlotAxisLimits (plots.getLast h) := by
  induction plots generalizing init with
  | nil => exact absurd rfl h
  | cons a as ih =>
    cases as with
    | nil => simp [computeAxisLimits]
    | cons b bs =>
      have hstep : computeAxisLimits env (a :: b :: bs) init =
          computeAxisLimits env (b :: bs) (env.getPlotAxisLimits a) := rfl
      rw [hstep, List.getLast_cons (by simp : (b : Nat) :: bs ≠ [])]
      exact ih (env.getPlotAxisLimits a) (by simp)

/-- Witness for the amended C4 at a concrete input: the limits computed
for the canvas `[0, 1]` are plot 1's range. -/
theorem claim_C4_limits_are_last_plots_witness :
    computeAxisLimits envLim [0, 1] ⟨0, 0, 0, 0⟩ =
      envLim.getPlotAxisLimits 1 :=
  claim_C4_limits_are_last_plots envLim [0, 1] ⟨0, 0, 0, 0⟩ (by decide)

/-- The state of `Series<X, Y>` that `getAxisLimits` reads: the `skip`
step and the data buffer contents (`sizeData = data.length`). -/
structure SeriesPlot where
  skip : Int
  data : List Int

/-- Modelled from the spec: `Stats::minValue(data, sizeData)` — stats.h
is not part of the provided source.  Per the spec it is the plot's data
range minimum ("asking every member plot for its data range"; the
end-to-end property expects `minY = 1` for values `[1,3,2,5,4]`). -/
def minValue : List Int → Int
  | [] => 0
  | x :: xs => xs.foldl min x

/-- Modelled from the spec: `Stats::maxValue(data, sizeData)` — stats.h
is not part of the provided source; the data range maximum (the
end-to-end property expects `maxY = 5` for values `[1,3,2,5,4]`). -/
def maxValue : List Int → Int
  | [] => 0
  | x :: xs => xs.foldl max x

/-- `Series::getAxisLimits` (canvas.cpp excerpt lines 377–383):
`{0, (sizeData - 1) * skip, min(data), max(data)}`. -/
def seriesGetAxisLimits (s : SeriesPlot) : AxisLimits :=
  ⟨0, ((s.data.length : Int) - 1) * s.skip, minValue s.data,
   maxValue s.data⟩

/-- The one-series registry of the C5 end-to-end scenario: the single
plot is a series with 5 points `[1,3,2,5,4]` and `skip = 1`. -/
def envSeries : LimitsEnv :=
  ⟨fun _ => seriesGetAxisLimits ⟨1, [1, 3, 2, 5, 4]⟩⟩

/-- C5: for a canvas holding one series plot with 5 data points
`[1,3,2,5,4]` and `skip = 1`, the paint pass computes axis limits
`minX = 0`, `maxX = 4`, `minY = 1`, `maxY = 5`; and the four draw-space
corners computed during a paint pass depend only on the window size, the
axes' clearances and the fixed border constant — never on the plot data:
two passes with arbitrary (even different) registries, member lists and
initial limit buffers produce identical corners. -/
theorem claim_C5_end_to_end :
    seriesGetAxisLimits ⟨1, [1, 3, 2, 5, 4]⟩ = ⟨0, 4, 1, 5⟩ ∧
    (∀ border sizeX sizeY cH cV,
      (canvasDrawPass envSeries [0] ⟨0, 0, 0, 0⟩
        border sizeX sizeY cH cV).1 = ⟨0, 4, 1, 5⟩) ∧
    (∀ env1 env2 plots1 plots2 lim1 lim2 border sizeX sizeY cH cV,
      (canvasDrawPass env1 plots1 lim1 border sizeX sizeY cH cV).2 =
      (canvasDrawPass env2 plots2 lim2 border sizeX sizeY cH cV).2) := by
  refine ⟨by decide, ?_,
    fun env1 env2 plots1 plots2 lim1 lim2 border sizeX sizeY cH cV => rfl⟩
  intro border sizeX sizeY cH cV
  show computeAxisLimits envSeries [0] ⟨0, 0, 0, 0⟩ = ⟨0, 4, 1, 5⟩
  decide

/-- A heap of `new[]`-allocated buffers, by address: `next` is the next
fresh address, `live` the currently allocated addresses, `freed` the
addresses `delete[]`d so far, and `ub` records whether a `delete[]` ever
hit a non-live address (double free / foreign pointer). -/
structure Heap where
  next : Nat
  live : List Nat
  freed : List Nat
  ub : Bool
deriving DecidableEq

/-- `delete[] a`: releases a live allocation; deleting a non-live
address is undefined behaviour, recorded in `ub`. -/
def freeBuf (h : Heap) (a : Nat) : Heap :=
  if a ∈ h.live then ⟨h.next, h.live.erase a, a :: h.freed, h.ub⟩
  else ⟨h.next, h.live, h.freed, true⟩

/-- The `data` member of one `Series` plot: the address of the buffer it
currently points at. -/
structure SeriesBuf where
  data : Nat
deriving DecidableEq

/-- `Series::isolateData` (canvas.cpp excerpt lines 400–405):
`Y* newData = new Y[...]; memcpy(...); data = newData;` — allocate a
fresh buffer and repoint `data` at it.  The previous pointer value is
overwritten and kept nowhere. -/
def isolateData (_s : SeriesBuf) (h : Heap) : SeriesBuf × Heap :=
  (⟨h.next⟩, ⟨h.next + 1, h.next :: h.live, h.freed, h.ub⟩)

/-- `Series::deleteData` (canvas.cpp excerpt lines 407–410):
`delete[] data;` — the buffer is released but the `data` member keeps
its (now dangling) value. -/
def deleteData (s : SeriesBuf) (h : Heap) : Heap :=
  freeBuf h s.data

/-- `isolatePlotData(id)` applied to every member plot in order. -/
def isolateAll : List SeriesBuf → Heap → List SeriesBuf × Heap
  | [], h => ([], h)
  | s :: ss, h =>
    let r := isolateData s h
    let rest := isolateAll ss r.2
    (r.1 :: rest.1, rest.2)

/-- `deletePlotData(id)` applied to every member plot in order; the
plots' `data` members are untouched. -/
def deleteAll : List SeriesBuf → Heap → Heap
  | [], h => h
  | s :: ss, h => deleteAll ss (deleteData s h)

/-- Modelled from the spec: the sentinel frame-rate value `SP_STATIC`
(standard.h is not part of the provided source).  Every theorem depends
only on equality with the sentinel, never on its numeric value. -/
def SP_STATIC : Int := -1

/-- The state of a canvas that `setFramerate`, `kill` and the render
loop touch: the frame rate, each member plot's data-buffer pointer, the
heap, and the backbuffer/killed flags. -/
structure CanvasRT where
  framerate : Int
  plotBufs : List SeriesBuf
  heap : Heap
  backbufferReleased : Bool
  killed : Bool
deriving DecidableEq

/-- `Canvas::setFramerate` (canvas.cpp lines 182–194): entering static
mode isolates every member plot's data; leaving static mode deletes the
private copies (without repointing the plots' `data` members). -/
def setFramerate (c : CanvasRT) (framerate_ : Int) : CanvasRT :=
  let c1 :=
    if framerate_ = SP_STATIC ∧ c.framerate ≠ SP_STATIC then
      let r := isolateAll c.plotBufs c.heap
      { c with plotBufs := r.1, heap := r.2 }
    else c
  let c2 :=
    if framerate_ ≠ SP_STATIC ∧ c.framerate = SP_STATIC then
      { c1 with heap := deleteAll c1.plotBufs c1.heap }
    else c1
  { c2 with framerate := framerate_ }

/-- `Canvas::kill` (canvas.cpp lines 274–286): no-op when already
killed; otherwise release the backbuffer bitmap, delete every member
plot's data if the canvas is in static mode, and mark killed. -/
def kill (c : CanvasRT) : CanvasRT :=
  if c.killed then c
  else
    let c1 := { c with backbufferReleased := true }
    let c2 :=
      if c1.framerate = SP_STATIC then
        { c1 with heap := deleteAll c1.plotBufs c1.heap }
      else c1
    { c2 with killed := true }

/-- One iteration of the `Canvas::launch` render loop (canvas.cpp lines
104–118): read the termination flag for this window handle
(`terminateCanvas.find(hwnd)`, `none` when the handle is absent — which
also terminates); when set, `kill()` and `break`; otherwise paint and
continue.  Returns the next state and whether the loop exited. -/
def launchStep (termFlag : Option Bool) (c : CanvasRT) :
    CanvasRT × Bool :=
  let killNow := match termFlag with
    | none => true
    | some b => b
  if killNow then (kill c, true) else (c, false)

/-- The canvas of the C3 scenario before the toggle: non-static
(frame rate 30), one member plot whose `data` points at the caller's
buffer, address 0, which is live. -/
def cToggle : CanvasRT :=
  ⟨30, [⟨0⟩], ⟨1, [0], [], false⟩, false, false⟩

/-- C3 evaluated at its failing input: after `setFramerate(SP_STATIC)`
followed by `setFramerate(30)` the member plot's `data` does NOT again
refer to the caller's original buffer (address 0): it still holds the
address 1 of the intermediate private copy, which has been freed (freed
exactly once, and without undefined behaviour so far) — so the plot's
pointer dangles and the next paint pass reads a freed buffer. -/
theorem claim_C3_toggle_dangles :
    (setFramerate (setFramerate cToggle SP_STATIC) 30).plotBufs =
      [⟨1⟩] ∧
    (setFramerate (setFramerate cToggle SP_STATIC) 30).plotBufs ≠
      [⟨0⟩] ∧
    (setFramerate (setFramerate cToggle SP_STATIC) 30).heap.freed =
      [1] ∧
    1 ∉ (setFramerate (setFramerate cToggle SP_STATIC) 30).heap.live ∧
    (setFramerate (setFramerate cToggle SP_STATIC) 30).heap.ub =
      false := by
  exact ⟨by decide, by decide, by decide, by decide, by decide⟩

/-- `delete[]` makes its target freed whenever the target was live or
already freed. -/
theorem freeBuf_mem_freed (h : Heap) (a : Nat)
    (ha : a ∈ h.live ∨ a ∈ h.freed) : a ∈ (freeBuf h a).freed := by
  unfold freeBuf
  split
  · exact List.mem_cons_self a h.freed
  · rcases ha with ha | ha
    · exact absurd ha (by assumption)
    · exact ha

/-- `delete[]` never un-frees an address. -/
theorem freeBuf_freed_mono (h : Heap) (b a : Nat) (hb : b ∈ h.freed) :
    b ∈ (freeBuf h a).freed := by
  unfold freeBuf
  split
  · exact List.mem_cons_of_mem a hb
  · exact hb

/-- An address that is live or freed stays live-or-freed across a
`delete[]`. -/
theorem freeBuf_live_or_freed (h : Heap) (b a : Nat)
    (hb : b ∈ h.live ∨ b ∈ h.freed) :
    b ∈ (freeBuf h a).live ∨ b ∈ (freeBuf h a).freed := by
  unfold freeBuf
  split
  · rcases hb with hb | hb
    · by_cases hba : b = a
      · subst hba; exact Or.inr (List.mem_cons_self b h.freed)
      · exact Or.inl ((List.mem_erase_of_ne hba).mpr hb)
    · exact Or.inr (List.mem_cons_of_mem a hb)
  · exact hb

/-- Freed addresses persist through a whole `deleteAll` sweep. -/
theorem deleteAll_freed_mono (bufs : List SeriesBuf) :
    ∀ h b, b ∈ h.freed → b ∈ (deleteAll bufs h).freed := by
  induction bufs with
  | nil => intro h b hb; exact hb
  | cons s ss ih =>
    intro h b hb
    exact ih (deleteData s h) b (freeBuf_freed_mono h b s.data hb)

/-- After `deletePlotData` on every member plot, every member plot's
buffer address is freed, provided each was live (or already freed)
beforehand. -/
theorem deleteAll_frees (bufs : List SeriesBuf) :
    ∀ h, (∀ s ∈ bufs, s.data ∈ h.live ∨ s.data ∈ h.freed) →
      ∀ s ∈ bufs, s.data ∈ (deleteAll bufs h).freed := by
  induction bufs with
  | nil => intro h _ s hs; cases hs
  | cons s0 ss ih =>
    intro h hall s hs
    have hstep : deleteAll (s0 :: ss) h =
        deleteAll ss (deleteData s0 h) := rfl
    rw [hstep]
    rcases List.mem_cons.mp hs with hs | hs
    · rw [hs]
      exact deleteAll_freed_mono ss (deleteData s0 h) s0.data
        (freeBuf_mem_freed h s0.data (hall s0 (List.mem_cons_self s0 ss)))
    · exact ih (deleteData s0 h)
        (fun t ht => freeBuf_live_or_freed h t.data s0.data
          (hall t (List.mem_cons_of_mem s0 ht)))
        s hs

/-- C6 counterexample: on a static-mode canvas whose single member
plot's private copy lives at address 1, observing the termination flag
does NOT materialize private copies — no allocation happens (`next` is
unchanged and the plots' buffers are unchanged); instead the existing
private copy is deleted (address 1 ends up freed). -/
theorem claim_C6_counterexample :
    (launchStep (some true)
      ⟨SP_STATIC, [⟨1⟩], ⟨2, [0, 1], [], false⟩, false, false⟩).1.heap.next =
      2 ∧
    (launchStep (some true)
      ⟨SP_STATIC, [⟨1⟩], ⟨2, [0, 1], [], false⟩, false, false⟩).1.plotBufs =
      [⟨1⟩] ∧
    1 ∈ (launchStep (some true)
      ⟨SP_STATIC, [⟨1⟩], ⟨2, [0, 1], [], false⟩, false, false⟩).1.heap.freed := by
  exact ⟨by decide, by decide, by decide⟩

/-- C6 amended: when the render loop observes the termination flag for
its window handle (set, or the handle absent from the map), the canvas
releases the backbuffer, DELETES the private data copies of all member
plots if the canvas is in static mode (each member's buffer address
becomes freed), marks itself killed, and exits the loop. -/
theorem claim_C6_kill_behaviour (term : Option Bool) (c : CanvasRT)
    (hterm : term = none ∨ term = some true) (hk : c.killed = false)
    (hstatic : c.framerate = SP_STATIC)
    (hlive : ∀ s ∈ c.plotBufs, s.data ∈ c.heap.live) :
    (launchStep term c).2 = true ∧
    (launchStep term c).1.backbufferReleased = true ∧
    (launchStep term c).1.killed = true ∧
    ∀ s ∈ c.plotBufs, s.data ∈ (launchStep term c).1.heap.freed := by
  have hkillnow : launchStep term c = (kill c, true) := by
    rcases hterm with hterm | hterm <;> subst hterm <;> rfl
  have hkill : kill c =
      ⟨c.framerate, c.plotBufs, deleteAll c.plotBufs c.heap, true, true⟩ := by
    simp [kill, hk, hstatic]
  rw [hkillnow, hkill]
  refine ⟨rfl, rfl, rfl, ?_⟩
  exact deleteAll_frees c.plotBufs c.heap
    (fun s hs => Or.inl (hlive s hs))

/-- Witness for the amended C6 at a concrete input: the static canvas
with one member plot isolated at address 1 exits, releases the
backbuffer, is killed, and address 1 is freed. -/
theorem claim_C6_kill_behaviour_witness :
    (launchStep (some true)
      ⟨SP_STATIC, [⟨1⟩], ⟨2, [0, 1], [], false⟩, false, false⟩).2 = true ∧
    (launchStep (some true)
      ⟨SP_STATIC, [⟨1⟩], ⟨2, [0, 1], [], false⟩, false,
        false⟩).1.backbufferReleased = true ∧
    (launchStep (some true)
      ⟨SP_STATIC, [⟨1⟩], ⟨2, [0, 1], [], false⟩, false,
        false⟩).1.killed = true ∧
    SeriesBuf.data ⟨1⟩ ∈ (launchStep (some true)
      ⟨SP_STATIC, [⟨1⟩], ⟨2, [0, 1], [], false⟩, false,
        false⟩).1.heap.freed := by
  have h := claim_C6_kill_behaviour (some true)
    ⟨SP_STATIC, [⟨1⟩], ⟨2, [0, 1], [], false⟩, false, false⟩
    (Or.inr rfl) rfl rfl (by decide)
  exact ⟨h.1, h.2.1, h.2.2.1, h.2.2.2 ⟨1⟩ (by decide)⟩

/-- The state of one `Axis` that `setEnds` touches: the numeric range
`[minT, maxT]` and a counter of `setMajorMinor` tick recomputations.
Float range ends are modelled as exact integers (the claims compare
them only for equality). -/
structure Axis where
  minT : Int
  maxT : Int
  recompCount : Nat
deriving DecidableEq

/-- Modelled from the spec: `Axis::setEnds(minT_, maxT_) -> changed`
(axis.cpp is not part of the provided source; only the declaration in
axis.h is).  Per §4.2 of the spec it "recomputes major/minor tick
spacing only if the range actually changed (idempotent no-op
otherwise)" and returns whether the range changed.  A recomputation is
recorded by bumping `recompCount`. -/
def Axis.setEnds (a : Axis) (minT_ maxT_ : Int) : Axis × Bool :=
  if a.minT = minT_ ∧ a.maxT = maxT_ then (a, false)
  else (⟨minT_, maxT_, a.recompCount + 1⟩, true)

/-- C8: for every axis state and floats `x`, `b`, calling
`setEnds(x, b)` and then `setEnds(x, b)` again performs no tick
recomputation on the second call and returns `false` (the state is
returned unchanged), while a subsequent `setEnds(x, z)` with `z ≠ b`
returns `true` and performs exactly one recomputation. -/
theorem Axis.setEnds_unchanged (a : Axis) (m M : Int)
    (hm : a.minT = m) (hM : a.maxT = M) :
    Axis.setEnds a m M = (a, false) := by
  unfold Axis.setEnds
  rw [if_pos ⟨hm, hM⟩]

theorem Axis.setEnds_changed (a : Axis) (m M : Int)
    (h : ¬(a.minT = m ∧ a.maxT = M)) :
    Axis.setEnds a m M = (⟨m, M, a.recompCount + 1⟩, true) := by
  unfold Axis.setEnds
  rw [if_neg h]

theorem claim_C8_setEnds_idempotent (a0 : Axis) (x b z : Int)
    (hzb : z ≠ b) :
    Axis.setEnds (Axis.setEnds a0 x b).1 x b =
      ((Axis.setEnds a0 x b).1, false) ∧
    (Axis.setEnds (Axis.setEnds a0 x b).1 x z).2 = true ∧
    (Axis.setEnds (Axis.setEnds a0 x b).1 x z).1.recompCount =
      (Axis.setEnds a0 x b).1.recompCount + 1 := by
  have hends : (Axis.setEnds a0 x b).1.minT = x ∧
      (Axis.setEnds a0 x b).1.maxT = b := by
    unfold Axis.setEnds
    split
    · next hcond => exact ⟨hcond.1, hcond.2⟩
    · exact ⟨rfl, rfl⟩
  have hne : ¬((Axis.setEnds a0 x b).1.minT = x ∧
      (Axis.setEnds a0 x b).1.maxT = z) :=
    fun hcond => hzb (hcond.2.symm.trans hends.2)
  refine ⟨Axis.setEnds_unchanged _ x b hends.1 hends.2, ?_, ?_⟩
  · rw [Axis.setEnds_changed (Axis.setEnds a0 x b).1 x z hne]
  · rw [Axis.setEnds_changed (Axis.setEnds a0 x b).1 x z hne]

/-- Witness for C8 at a concrete input: after `setEnds(1, 2)` from the
state `⟨0, 0, 0⟩`, repeating `setEnds(1, 2)` is a no-op returning
`false`, and `setEnds(1, 3)` recomputes once and returns `true`. -/
theorem claim_C8_setEnds_idempotent_witness :
    Axis.setEnds (Axis.setEnds ⟨0, 0, 0⟩ 1 2).1 1 2 =
      ((Axis.setEnds ⟨0, 0, 0⟩ 1 2).1, false) ∧
    (Axis.setEnds (Axis.setEnds ⟨0, 0, 0⟩ 1 2).1 1 3).2 = true ∧
    (Axis.setEnds (Axis.setEnds ⟨0, 0, 0⟩ 1 2).1 1 3).1.recompCount =
      (Axis.setEnds ⟨0, 0, 0⟩ 1 2).1.recompCount + 1 :=
  claim_C8_setEnds_idempotent ⟨0, 0, 0⟩ 1 2 3 (by decide)

/-- The mutexes the registry layer locks: the coarse
`Maps::canvasMapMutex` and the per-canvas `Maps::canvasMutexMap[id]`
entries. -/
inductive LockId where
  | canvasMapMutex : LockId
  | canvasMutexFor : Nat → LockId
deriving DecidableEq

/-- `std::mutex::lock` (non-recursive): locking a mutex the thread
already holds is undefined behaviour — in practice the thread blocks on
itself forever; modelled as `none` (the thread never proceeds). -/
def lockMutex (held : List LockId) (m : LockId) : Option (List LockId) :=
  if m ∈ held then none else some (m :: held)

/-- The `Maps::CanvasGuard` constructor (canvas.cpp lines 19–26): lock
the coarse map mutex, then the canvas's own mutex. -/
def canvasGuardLock (held : List LockId) (id : Nat) :
    Option (List LockId) :=
  match lockMutex held LockId.canvasMapMutex with
  | none => none
  | some h2 => lockMutex h2 (LockId.canvasMutexFor id)

/-- The lock acquisitions performed by one `addPlotToCanvas` call
(canvas.cpp lines 306–311): its own `CanvasGuard(canvasID)`, then the
nested `removePlotFromCanvas(getPlotCanvas(plotID), plotID)` constructs
a second `CanvasGuard(oldCanvasID)` while the first is still held. -/
def addPlotToCanvasLocks (canvasID oldCanvasID : Nat)
    (held : List LockId) : Option (List LockId) :=
  match canvasGuardLock held canvasID with
  | none => none
  | some h2 => canvasGuardLock h2 oldCanvasID

/-- C9 (code bug): a single `addPlotToCanvas` call, from a thread
holding no locks, always self-deadlocks — the nested
`removePlotFromCanvas` guard re-locks `canvasMapMutex`, which the outer
guard already holds — for every destination canvas and every current
owner of the plot.  Neither of two concurrent calls can therefore ever
complete. -/
theorem claim_C9_addPlotToCanvas_self_deadlock
    (canvasID oldCanvasID : Nat) :
    addPlotToCanvasLocks canvasID oldCanvasID [] = none := by
  simp [addPlotToCanvasLocks, canvasGuardLock, lockMutex]

end SimplePlot
